import Mathlib

/-
Verification of the plugin subsystem in src/binwalk/core/plugin.py.

The Python module is shallowly embedded as follows:
- Exceptions become the inductive PExc (KeyboardInterrupt vs any ordinary Exception).
- Python values that the dispatch loop inspects for truthiness become PyVal.
- A callback handle (a bound method held in one of the three callback lists)
  becomes a Callback record: its __module__ and __name__ strings plus a run
  function.  In-place mutation of the argument object is modelled by explicit
  state passing: run receives the current value of the shared record (or none
  when the callback is invoked with no argument) and returns the value the
  shared record holds when the callback returns, together with the exception
  it raises, if any.
- The module executes the statement importing binwalk.core.common
  at the top, which binds the package name binwalk and sets its core submodule
  attribute.  Every warning call site in the file, however, is spelled
    binwalk.common.core.warning(...)
  The repository has no binwalk.common module (the common module lives at
  binwalk/core/common.py), so evaluating the attribute binwalk.common raises
  AttributeError before the warning function is ever reached.  warningCall
  models this attribute resolution: it consults the list of submodule
  attributes that the imports of plugin.py set on the binwalk package.
-/

/-- A Python exception, split the way the except clauses of plugin.py split
them: KeyboardInterrupt versus any other (ordinary) Exception, carrying str(e). -/
inductive PExc where
  | keyboardInterrupt : PExc
  | ordinary : String → PExc
deriving DecidableEq

/-- The Python values the embedded code inspects: None, bools, strings and
dicts (association lists in insertion order). -/
inductive PyVal where
  | nonePy : PyVal
  | boolPy : Bool → PyVal
  | strPy : String → PyVal
  | dictPy : List (String × PyVal) → PyVal

/-- Python truthiness for PyVal: None is falsy, a bool is itself, a string or
dict is truthy iff non-empty.  This is what the condition if arg: in
Plugins._call_plugins evaluates. -/
def truthy : PyVal → Bool
  | PyVal.nonePy => false
  | PyVal.boolPy b => b
  | PyVal.strPy s => !s.isEmpty
  | PyVal.dictPy es => !es.isEmpty

/-- Submodule attributes that the import statements of plugin.py set on the
binwalk package object: importing binwalk.core.common and
binwalk.core.settings sets the attribute core (and nothing else); the
repository contains no binwalk.common module at all. -/
def binwalkPackageAttrs : List String := ["core"]

/-- str(e) of the AttributeError raised when the expression binwalk.common is
evaluated at a warning call site. -/
def attributeErrorNoCommon : String :=
  "module binwalk has no attribute common"

/-- Evaluation of a call binwalk.common.core.warning(msg), as written at every
warning call site of plugin.py.  Python resolves the callable first: the
attribute lookup binwalk.common fails (only binwalk.core was imported), so the
call raises AttributeError and the message is never appended to the emitted
warnings.  The success branch models what would happen if the attribute
resolved to the warning interface. -/
def warningCall (warnings : List String) (msg : String) :
    List String × Option PExc :=
  if binwalkPackageAttrs.contains "common" then
    (warnings ++ [msg], none)
  else
    (warnings, some (PExc.ordinary attributeErrorNoCommon))

/-- A callback handle: a bound lifecycle method of one plugin instance, as
stored in the scan, pre scan and post scan lists.  modName is
callback.__module__, methName is callback.__name__.  run models invoking the
method: it receives some v when called as callback(arg) with the shared
record currently holding v, and none when called as callback() with no
argument.  It returns the value the shared record holds afterwards (ignored
by the dispatcher when no argument was passed) and the exception raised, if
any. -/
structure Callback where
  modName : String
  methName : String
  run : Option PyVal → PyVal × Option PExc

/-- The observable outcome of one _call_plugins dispatch: the sequence of
invocations actually performed (module, method, and the argument each was
passed), the warnings successfully emitted, the final value of the shared
argument object, and the exception that escaped the dispatch loop, if any. -/
structure DispatchResult where
  calls : List (String × String × Option PyVal)
  warnings : List String
  final : PyVal
  exc : Option PExc

/-- The loop body of Plugins._call_plugins, threading the mutable argument
object as explicit state.  Per iteration: the truthiness of arg is
re-evaluated on the current (possibly mutated) value; on an ordinary
exception the handler calls binwalk.common.core.warning, whose failure
(warningCall) escapes the loop; KeyboardInterrupt is re-raised at once. -/
def callPluginsGo :
    List Callback → PyVal → List (String × String × Option PyVal) →
    List String → DispatchResult
  | [], st, cs, ws => ⟨cs, ws, st, none⟩
  | cb :: rest, st, cs, ws =>
    let argPassed : Option PyVal := if truthy st then some st else none
    let out := cb.run argPassed
    let st1 := if truthy st then out.1 else st
    let cs1 := cs ++ [(cb.modName, cb.methName, argPassed)]
    match out.2 with
    | none => callPluginsGo rest st1 cs1 ws
    | some PExc.keyboardInterrupt =>
        ⟨cs1, ws, st1, some PExc.keyboardInterrupt⟩
    | some (PExc.ordinary m) =>
        let msg := cb.modName ++ "." ++ cb.methName ++ " failed: " ++ m
        match warningCall ws msg with
        | (ws1, none) => callPluginsGo rest st1 cs1 ws1
        | (ws1, some e) => ⟨cs1, ws1, st1, some e⟩

/-- Plugins._call_plugins(callback_list, arg). -/
def callPlugins (cbs : List Callback) (arg : PyVal) : DispatchResult :=
  callPluginsGo cbs arg [] []

/-- Plugins.pre_scan_callbacks(obj): ignores obj and dispatches the pre scan
list with arg = None. -/
def pre_scan_callbacks (cbs : List Callback) (_obj : PyVal) : DispatchResult :=
  callPlugins cbs PyVal.nonePy

/-- Plugins.post_scan_callbacks(obj): ignores obj and dispatches the post scan
list with arg = None. -/
def post_scan_callbacks (cbs : List Callback) (_obj : PyVal) : DispatchResult :=
  callPlugins cbs PyVal.nonePy

/-- Plugins.scan_callbacks(obj): dispatches the scan list with arg = obj. -/
def scan_callbacks (cbs : List Callback) (obj : PyVal) : DispatchResult :=
  callPlugins cbs obj

/-- The active module context passed to Plugin.__init__: the host object whose
name attribute (self.module.name) is compared against the affinity list. -/
structure ModuleCtx where
  name : String

/-- A concrete plugin class found in a plugin module: its MODULES affinity
list, its class docstring (__doc__, none when absent), and which of the three
lifecycle methods the class body itself overrides. -/
structure PluginClass where
  modules : List String
  doc : Option String
  overridesPreScan : Bool
  overridesScan : Bool
  overridesPostScan : Bool

/-- A constructed plugin instance: Plugin.__init__ stores the module handle,
derives the _enabled flag and calls self.init() exactly on the enabled
branch.  initCalled records whether init() was invoked. -/
structure PluginInstance where
  cls : PluginClass
  ctxName : String
  enabled : Bool
  initCalled : Bool

/-- Plugin.__init__(self, module): enabled iff
not self.MODULES or self.module.name in self.MODULES, and self.init() is
called exactly on the enabled branch. -/
def pluginInit (cls : PluginClass) (ctx : ModuleCtx) : PluginInstance :=
  if cls.modules.isEmpty || cls.modules.contains ctx.name then
    { cls := cls, ctxName := ctx.name, enabled := true, initCalled := true }
  else
    { cls := cls, ctxName := ctx.name, enabled := false, initCalled := false }

/-- Whether the concrete plugin class body itself defines the named lifecycle
method (i.e. overrides it). -/
def classDefines (cls : PluginClass) : String → Bool
  | "pre_scan" => cls.overridesPreScan
  | "scan" => cls.overridesScan
  | "post_scan" => cls.overridesPostScan
  | _ => false

/-- Methods defined on the Plugin base class itself: init, pre_scan, scan and
post_scan are all present there as default no-ops. -/
def pluginBaseMethods : List String := ["init", "pre_scan", "scan", "post_scan"]

/-- Whether getattr(class_instance, meth) succeeds for a Plugin instance:
Python looks the attribute up on the concrete class, then on the Plugin base
class.  Because the base class defines all three lifecycle methods, getattr
never fails for scan, pre_scan or post_scan. -/
def getattrSucceeds (cls : PluginClass) (meth : String) : Bool :=
  classDefines cls meth || pluginBaseMethods.contains meth

/-- The outcome of loading one candidate plugin file:
imp.load_source followed by _find_plugin_class either yields a qualifying
class, raises an ordinary exception (file fails to parse, or no class in the
module subclasses Plugin, in which case _find_plugin_class raises), or
raises KeyboardInterrupt. -/
inductive LoadResult where
  | ok : PluginClass → LoadResult
  | err : String → LoadResult
  | interrupt : LoadResult

/-- One plugin search root as the environment presents it to plugin.py:
path is the directory that settings.get_file_path resolves (none for a falsy
result), listing is what os.listdir returns for it, in filesystem order, and
load gives the deterministic outcome of loading a given module name from that
directory. -/
structure DirSource where
  path : Option String
  listing : List String
  load : String → LoadResult

/-- The per-origin record built by Plugins.list_plugins: the modules list, the
enabled and descriptions dicts (association lists in insertion order) and the
resolved path. -/
structure OriginInventory where
  modules : List String
  enabled : List (String × Bool)
  descriptions : List (String × String)
  path : Option String

/-- MODULE_EXTENSION. -/
def moduleExt : String := ".py"

/-- Python str.endswith: a character-wise suffix test. -/
def strEndsWith (s suff : String) : Bool := List.isSuffixOf suff.data s.data

/-- The description recorded for a module:
plugin_class.__doc__.strip().split(chr 10)[0], or the fallback when __doc__
is None (None.strip() raises AttributeError, caught, yielding the default). -/
def describeClass : Option String → String
  | some d => (d.trim.splitOn "\n").headD ""
  | none => "No description"

/-- The loop body of Plugins.list_plugins over one directory listing.  For
each file name carrying the module extension the module is loaded; on success
the module is appended and described; on an ordinary load failure the except
handler first calls binwalk.common.core.warning, whose AttributeError escapes
list_plugins before enabled[module] = False is reached; KeyboardInterrupt is
re-raised.  The success branch of warningCall models the never-reached
continuation (enabled set to False; the description try block would then
reference a stale or unbound plugin_class, modelled by the default
description). -/
def listOnePathGo (src : DirSource) :
    List String → OriginInventory → List String →
    OriginInventory × List String × Option PExc
  | [], inv, ws => (inv, ws, none)
  | f :: rest, inv, ws =>
    if strEndsWith f moduleExt then
      let m := f.dropRight moduleExt.length
      match src.load m with
      | LoadResult.interrupt => (inv, ws, some PExc.keyboardInterrupt)
      | LoadResult.err emsg =>
        let msg := "Error loading plugin " ++ f ++ ": " ++ emsg
        match warningCall ws msg with
        | (ws1, some e) => (inv, ws1, some e)
        | (ws1, none) =>
          let inv1 := { inv with
            enabled := inv.enabled ++ [(m, false)],
            descriptions := inv.descriptions ++ [(m, "No description")] }
          listOnePathGo src rest inv1 ws1
      | LoadResult.ok cls =>
        let inv1 := { inv with
          enabled := inv.enabled ++ [(m, true)],
          modules := inv.modules ++ [m],
          descriptions := inv.descriptions ++ [(m, describeClass cls.doc)] }
        listOnePathGo src rest inv1 ws
    else
      listOnePathGo src rest inv ws

/-- Plugins.list_plugins restricted to one origin key: resolve the path; when
it is falsy the directory is skipped entirely, otherwise the listing is
enumerated. -/
def listOnePath (src : DirSource) : OriginInventory × List String × Option PExc :=
  match src.path with
  | none => (⟨[], [], [], none⟩, [], none)
  | some p => listOnePathGo src src.listing ⟨[], [], [], some p⟩ []

/-- The two-origin dictionary returned by Plugins.list_plugins. -/
structure Inventory where
  user : OriginInventory
  system : OriginInventory

/-- Plugins.list_plugins: enumerates the user root and then the system root.
An exception during the user root aborts the whole call (the partial
inventory carried alongside is what had been built when the exception was
raised and is not observable in Python). -/
def list_plugins (usrc ssrc : DirSource) :
    Inventory × List String × Option PExc :=
  match listOnePath usrc with
  | (ui, uw, some e) => (⟨ui, ⟨[], [], [], none⟩⟩, uw, some e)
  | (ui, uw, none) =>
    match listOnePath ssrc with
    | (si, sw, se) => (⟨ui, si⟩, uw ++ sw, se)

/-- The three callback lists owned by a Plugins instance.  A registered
handle is identified by the plugin module name it is bound to and the
lifecycle method name. -/
structure Registry where
  scan : List (String × String)
  pre_scan : List (String × String)
  post_scan : List (String × String)

/-- The three empty lists created by Plugins.__init__ (and only there). -/
def emptyRegistry : Registry := ⟨[], [], []⟩

/-- The loop body of Plugins._load_plugin_modules for one module name.
When path is none, os.path.join(None, ...) raises; the except handler
executes continue, so the module is skipped.  Otherwise the module is loaded
again; KeyboardInterrupt is re-raised; an ordinary failure reaches the
warning call site, whose AttributeError escapes; on success the class is
instantiated, a disabled instance is skipped, and an enabled one has
getattr(class_instance, name) appended for scan, pre_scan and post_scan in
that order, each under a try whose failure would be ignored. -/
def processModule (path : Option String) (load : String → LoadResult)
    (ctx : ModuleCtx) (st : Registry) (m : String) :
    Registry × List String × Option PExc :=
  match path with
  | none => (st, [], none)
  | some _ =>
    match load m with
    | LoadResult.interrupt => (st, [], some PExc.keyboardInterrupt)
    | LoadResult.err emsg =>
      let msg := "Failed to load plugin module " ++ m ++ ": " ++ emsg
      match warningCall [] msg with
      | (ws1, some e) => (st, ws1, some e)
      | (ws1, none) => (st, ws1, none)
    | LoadResult.ok cls =>
      let inst := pluginInit cls ctx
      if !inst.enabled then (st, [], none)
      else
        let st1 := if getattrSucceeds cls "scan" then
          { st with scan := st.scan ++ [(m, "scan")] } else st
        let st2 := if getattrSucceeds cls "pre_scan" then
          { st1 with pre_scan := st1.pre_scan ++ [(m, "pre_scan")] } else st1
        let st3 := if getattrSucceeds cls "post_scan" then
          { st2 with post_scan := st2.post_scan ++ [(m, "post_scan")] } else st2
        (st3, [], none)

/-- Plugins._load_plugin_modules: folds processModule over the modules list of
one origin record, stopping when an exception escapes. -/
def loadModules (path : Option String) (load : String → LoadResult)
    (ctx : ModuleCtx) : List String → Registry → Registry × Option PExc
  | [], st => (st, none)
  | m :: rest, st =>
    match processModule path load ctx st m with
    | (st1, _, none) => loadModules path load ctx rest st1
    | (st1, _, some e) => (st1, some e)

/-- Plugins.load_plugins: runs list_plugins over both roots, then
_load_plugin_modules on the user record and then on the system record,
appending onto the callback lists the Plugins instance already holds (st).
Any escaping exception aborts the remainder. -/
def load_plugins (usrc ssrc : DirSource) (ctx : ModuleCtx) (st : Registry) :
    Registry × Option PExc :=
  match list_plugins usrc ssrc with
  | (_, _, some e) => (st, some e)
  | (inv, _, none) =>
    match loadModules inv.user.path usrc.load ctx inv.user.modules st with
    | (st1, some e) => (st1, some e)
    | (st1, none) =>
      loadModules inv.system.path ssrc.load ctx inv.system.modules st1

/-- Example scan handle that leaves the record unchanged and raises an
ordinary exception with message boom. -/
def exRaisingCb : Callback :=
  ⟨"plugin_one", "scan",
   fun o => (o.getD PyVal.nonePy, some (PExc.ordinary "boom"))⟩

/-- Example scan handle that replaces the record contents with a marker
entry and returns normally. -/
def exMutatingCb : Callback :=
  ⟨"plugin_two", "scan",
   fun _ => (PyVal.dictPy [("checked", PyVal.boolPy true)], none)⟩

/-- Example pre scan handle that raises KeyboardInterrupt. -/
def exInterruptCb : Callback :=
  ⟨"plugin_three", "pre_scan",
   fun o => (o.getD PyVal.nonePy, some PExc.keyboardInterrupt)⟩

/-- Example scan handle that reads the record and leaves it unchanged. -/
def exReaderCb : Callback :=
  ⟨"plugin_four", "scan", fun o => (o.getD PyVal.nonePy, none)⟩

/-- Example scan handle that sets the field valid to False on the record. -/
def exValidFalseCb : Callback :=
  ⟨"plugin_five", "scan",
   fun _ => (PyVal.dictPy [("valid", PyVal.boolPy false)], none)⟩

/-- Example plugin class with an empty affinity list, no docstring, and only
scan overridden (the extension A of the spec example). -/
def exClsPlain : PluginClass := ⟨[], none, false, true, false⟩

/-- Example plugin class with an empty affinity list, no docstring, and only
pre_scan and post_scan overridden (the extension B of the spec example). -/
def exClsB : PluginClass := ⟨[], none, true, false, true⟩

/-- Example plugin class whose affinity list names only the module Other. -/
def exClsOtherOnly : PluginClass := ⟨["Other"], none, true, true, true⟩

/-- Example active module context named Signature. -/
def exCtx : ModuleCtx := ⟨"Signature"⟩

/-- Example plugin directory whose listing holds two loadable files around
one file that fails to load. -/
def exBadDir : DirSource :=
  ⟨some "/user/plugins", ["good1.py", "bad.py", "good2.py"],
   fun m => if m = "bad" then LoadResult.err "SyntaxError: invalid syntax"
            else LoadResult.ok exClsPlain⟩

/-- Example user directory holding extension A in a.py and extension B in
b.py, both loading successfully. -/
def exUserAB : DirSource :=
  ⟨some "/user/plugins", ["a.py", "b.py"],
   fun m => if m = "a" then LoadResult.ok exClsPlain
            else LoadResult.ok exClsB⟩

/-- Example user directory whose filesystem enumeration yields b.py before
a.py, both loading successfully. -/
def exUserBA : DirSource :=
  ⟨some "/user/plugins", ["b.py", "a.py"], fun _ => LoadResult.ok exClsPlain⟩

/-- Example user directory holding the single module u1. -/
def exUserSingle : DirSource :=
  ⟨some "/user/plugins", ["u1.py"], fun _ => LoadResult.ok exClsPlain⟩

/-- Example system directory holding the single module s1. -/
def exSysSingle : DirSource :=
  ⟨some "/sys/plugins", ["s1.py"], fun _ => LoadResult.ok exClsB⟩

/-- Example absent search root: settings resolved no directory. -/
def exNoDir : DirSource :=
  ⟨none, [], fun _ => LoadResult.err "no such directory"⟩

/-- Every warning call site in plugin.py fails: the attribute lookup
binwalk.common raises AttributeError, so no message is ever emitted. -/
theorem warningCall_raises (ws : List String) (msg : String) :
    warningCall ws msg = (ws, some (PExc.ordinary attributeErrorNoCommon)) := rfl

/-- getattr on a Plugin instance succeeds for every method the Plugin base
class defines, whatever the concrete class overrides. -/
theorem getattrSucceeds_base (cls : PluginClass) (meth : String)
    (hm : pluginBaseMethods.contains meth = true) :
    getattrSucceeds cls meth = true := by
  simp only [getattrSucceeds, hm, Bool.or_true]

/-- Dispatching over a falsy argument invokes every callback with no
argument and leaves the argument value untouched, provided no callback
raises. -/
theorem callPluginsGo_falsy (cbs : List Callback) :
    ∀ (st : PyVal) (cs : List (String × String × Option PyVal))
      (ws : List String),
    truthy st = false → (∀ cb ∈ cbs, (cb.run none).2 = none) →
    callPluginsGo cbs st cs ws =
      ⟨cs ++ cbs.map (fun cb => (cb.modName, cb.methName, (none : Option PyVal))),
       ws, st, none⟩ := by
  induction cbs with
  | nil => intro st cs ws _ _; simp [callPluginsGo]
  | cons cb rest ih =>
    intro st cs ws hf hok
    have h1 : (cb.run none).2 = none := hok cb (by simp)
    have hrest : ∀ c ∈ rest, (c.run none).2 = none := by
      intro c hc; exact hok c (by simp [hc])
    simp only [callPluginsGo, hf, if_false, Bool.false_eq_true, h1]
    rw [ih st (cs ++ [(cb.modName, cb.methName, none)]) ws hf hrest]
    simp

/-- _load_plugin_modules only ever appends to the three callback lists:
processing one module from any prior registry state produces the state with
the same handles appended as processing it from the empty registry, and the
escaping exception does not depend on the prior state. -/
theorem processModule_shift (path : Option String) (load : String → LoadResult)
    (ctx : ModuleCtx) (st : Registry) (m : String) :
    (processModule path load ctx st m).1.scan =
      st.scan ++ (processModule path load ctx emptyRegistry m).1.scan ∧
    (processModule path load ctx st m).1.pre_scan =
      st.pre_scan ++ (processModule path load ctx emptyRegistry m).1.pre_scan ∧
    (processModule path load ctx st m).1.post_scan =
      st.post_scan ++ (processModule path load ctx emptyRegistry m).1.post_scan ∧
    (processModule path load ctx st m).2.2 =
      (processModule path load ctx emptyRegistry m).2.2 := by
  cases path with
  | none => simp [processModule, emptyRegistry]
  | some p =>
    cases hl : load m with
    | interrupt => simp [processModule, hl, emptyRegistry]
    | err emsg => simp [processModule, hl, warningCall_raises, emptyRegistry]
    | ok cls =>
      cases he : (pluginInit cls ctx).enabled with
      | false => simp [processModule, hl, he, emptyRegistry]
      | true =>
        cases hgs : getattrSucceeds cls "scan" <;>
          cases hgp : getattrSucceeds cls "pre_scan" <;>
            cases hgq : getattrSucceeds cls "post_scan" <;>
              simp [processModule, hl, he, hgs, hgp, hgq, emptyRegistry]

/-- _load_plugin_modules over a whole modules list only appends: running it
from any prior registry yields the prior lists with the same handles
appended as a run from the empty registry, and the escaping exception does
not depend on the prior state. -/
theorem loadModules_shift (path : Option String) (load : String → LoadResult)
    (ctx : ModuleCtx) (ms : List String) :
    ∀ st : Registry,
    (loadModules path load ctx ms st).1.scan =
      st.scan ++ (loadModules path load ctx ms emptyRegistry).1.scan ∧
    (loadModules path load ctx ms st).1.pre_scan =
      st.pre_scan ++ (loadModules path load ctx ms emptyRegistry).1.pre_scan ∧
    (loadModules path load ctx ms st).1.post_scan =
      st.post_scan ++ (loadModules path load ctx ms emptyRegistry).1.post_scan ∧
    (loadModules path load ctx ms st).2 =
      (loadModules path load ctx ms emptyRegistry).2 := by
  induction ms with
  | nil => intro st; simp [loadModules, emptyRegistry]
  | cons m rest ih =>
    intro st
    obtain ⟨ps, pp, pq, pe⟩ := processModule_shift path load ctx st m
    rcases hpe : processModule path load ctx emptyRegistry m with ⟨d1, dw, de⟩
    rcases hps : processModule path load ctx st m with ⟨s1, sw, se⟩
    rw [hpe, hps] at ps pp pq pe
    simp only at ps pp pq pe
    subst pe
    cases se with
    | some e0 =>
      simp [loadModules, hpe, hps, ps, pp, pq]
    | none =>
      obtain ⟨is1, ip1, iq1, ie1⟩ := ih s1
      obtain ⟨id1, ipd1, iqd1, ied1⟩ := ih d1
      simp only [loadModules, hpe, hps]
      refine ⟨?_, ?_, ?_, ?_⟩
      · rw [is1, id1, ps, emptyRegistry, List.append_assoc]
      · rw [ip1, ipd1, pp, emptyRegistry, List.append_assoc]
      · rw [iq1, iqd1, pq, emptyRegistry, List.append_assoc]
      · rw [ie1, ied1]

/-- load_plugins only appends to the three callback lists the Plugins
instance already holds: running it from any prior registry yields the prior
lists with the same handles appended as a run from the empty registry. -/
theorem load_plugins_shift (u s : DirSource) (ctx : ModuleCtx) (st : Registry) :
    (load_plugins u s ctx st).1.scan =
      st.scan ++ (load_plugins u s ctx emptyRegistry).1.scan ∧
    (load_plugins u s ctx st).1.pre_scan =
      st.pre_scan ++ (load_plugins u s ctx emptyRegistry).1.pre_scan ∧
    (load_plugins u s ctx st).1.post_scan =
      st.post_scan ++ (load_plugins u s ctx emptyRegistry).1.post_scan := by
  rcases hlp : list_plugins u s with ⟨inv, ws, e⟩
  cases e with
  | some e0 => simp [load_plugins, hlp, emptyRegistry]
  | none =>
    obtain ⟨us, up, uq, ue⟩ :=
      loadModules_shift inv.user.path u.load ctx inv.user.modules st
    rcases hue : loadModules inv.user.path u.load ctx inv.user.modules
        emptyRegistry with ⟨d1, ed⟩
    rcases hus : loadModules inv.user.path u.load ctx inv.user.modules st
        with ⟨s1, es⟩
    rw [hue, hus] at us up uq ue
    simp only at us up uq ue
    subst ue
    cases es with
    | some e1 => simp [load_plugins, hlp, hue, hus, us, up, uq]
    | none =>
      obtain ⟨ss1, sp1, sq1, se1⟩ :=
        loadModules_shift inv.system.path s.load ctx inv.system.modules s1
      obtain ⟨sd1, spd1, sqd1, sed1⟩ :=
        loadModules_shift inv.system.path s.load ctx inv.system.modules d1
      simp only [load_plugins, hlp, hue, hus]
      refine ⟨?_, ?_, ?_⟩
      · rw [ss1, sd1, us, List.append_assoc]
      · rw [sp1, spd1, up, List.append_assoc]
      · rw [sq1, sqd1, uq, List.append_assoc]

/-- When discovery over a listing returns without raising, the modules it
records are exactly the file names carrying the module extension, in listing
order, with the extension cut off. -/
theorem listOnePathGo_modules (src : DirSource) (fs : List String) :
    ∀ (inv : OriginInventory) (ws : List String),
    (listOnePathGo src fs inv ws).2.2 = none →
    (listOnePathGo src fs inv ws).1.modules =
      inv.modules ++ (fs.filter (fun f => strEndsWith f moduleExt)).map
        (fun f => f.dropRight moduleExt.length) := by
  induction fs with
  | nil => intro inv ws _; simp [listOnePathGo]
  | cons f rest ih =>
    intro inv ws h
    cases hf : strEndsWith f moduleExt with
    | false =>
      rw [listOnePathGo, hf] at h ⊢
      simp only [Bool.false_eq_true, if_false]
      simp only [Bool.false_eq_true, if_false] at h
      rw [ih inv ws h]
      simp [List.filter, hf]
    | true =>
      cases hl : src.load (f.dropRight moduleExt.length) with
      | interrupt =>
        rw [listOnePathGo, hf] at h
        simp [hl] at h
      | err emsg =>
        rw [listOnePathGo, hf] at h
        simp [hl, warningCall_raises] at h
      | ok cls =>
        rw [listOnePathGo, hf] at h ⊢
        simp only [if_true] at h ⊢
        simp only [hl] at h ⊢
        rw [ih _ _ h]
        simp [List.filter, hf]

/-- When discovery over one root returns without raising and the root
resolved to a directory, the recorded modules are exactly the listed file
names carrying the module extension, in listing order, with the extension
cut off. -/
theorem listOnePath_modules (src : DirSource) (p : String)
    (hp : src.path = some p)
    (h : (listOnePath src).2.2 = none) :
    (listOnePath src).1.modules =
      (src.listing.filter (fun f => strEndsWith f moduleExt)).map
        (fun f => f.dropRight moduleExt.length) := by
  rw [listOnePath, hp] at h ⊢
  simpa using listOnePathGo_modules src src.listing ⟨[], [], [], some p⟩ [] h

/-- Claim C1: the claim says an ordinary failure in one handle is caught,
exactly one warning naming that extension and method is emitted, every later
handle in the list is still invoked and the dispatch call does not raise.
On the code this fails: the except handler evaluates
binwalk.common.core.warning, whose attribute lookup raises AttributeError,
so dispatching a list whose first handle raises an ordinary failure emits
zero warnings, never invokes the second handle and lets the AttributeError
escape the dispatch call. -/
theorem c1_dispatch_failure_not_isolated :
    callPlugins [exRaisingCb, exMutatingCb]
        (PyVal.dictPy [("description", PyVal.strPy "x")]) =
      ⟨[("plugin_one", "scan",
         some (PyVal.dictPy [("description", PyVal.strPy "x")]))], [],
       PyVal.dictPy [("description", PyVal.strPy "x")],
       some (PExc.ordinary attributeErrorNoCommon)⟩ := rfl

/-- Claim C5: a KeyboardInterrupt raised by a handle is re-raised at once:
no later handle in the list is invoked, no warning is emitted, and the
interruption escapes the dispatch loop, whatever calls and warnings were
already accumulated. -/
theorem c5_interrupt_propagates_immediately
    (cb : Callback) (rest : List Callback) (st : PyVal)
    (cs : List (String × String × Option PyVal)) (ws : List String) (v : PyVal)
    (h : cb.run (if truthy st then some st else none) =
      (v, some PExc.keyboardInterrupt)) :
    callPluginsGo (cb :: rest) st cs ws =
      ⟨cs ++ [(cb.modName, cb.methName, if truthy st then some st else none)],
       ws, if truthy st then v else st, some PExc.keyboardInterrupt⟩ := by
  simp [callPluginsGo, h]

/-- Witness for claim C5 at a concrete input: the interrupting handle first,
the mutating handle second; the second is never invoked and no warning is
emitted. -/
theorem c5_witness :
    callPluginsGo [exInterruptCb, exMutatingCb] PyVal.nonePy [] [] =
      ⟨[("plugin_three", "pre_scan", none)], [], PyVal.nonePy,
       some PExc.keyboardInterrupt⟩ := by
  exact c5_interrupt_propagates_immediately exInterruptCb [exMutatingCb]
    PyVal.nonePy [] [] PyVal.nonePy rfl

/-- Claim C4: the claim says discovery over one bad file and N good files
returns all N good entries plus one failed entry with a warning, never
raising.  On the code this fails: the except handler around the load calls
binwalk.common.core.warning, whose AttributeError escapes list_plugins, so
with listing [good1.py, bad.py, good2.py] discovery raises AttributeError,
records only good1, emits zero warnings and never reaches good2. -/
theorem c4_discovery_aborts_on_bad_file :
    listOnePath exBadDir =
      (⟨["good1"], [("good1", true)], [("good1", "No description")],
        some "/user/plugins"⟩,
       [], some (PExc.ordinary attributeErrorNoCommon)) := rfl

/-- Claim C6: for every extension constructed with a module context, the
enabled flag is true iff the affinity list MODULES is empty or contains the
context name, the decision is made by the constructor itself, and init() is
invoked exactly when the instance is enabled. -/
theorem c6_enabled_iff_affinity (cls : PluginClass) (ctx : ModuleCtx) :
    ((pluginInit cls ctx).enabled =
      (cls.modules.isEmpty || cls.modules.contains ctx.name)) ∧
    ((pluginInit cls ctx).initCalled = (pluginInit cls ctx).enabled) := by
  unfold pluginInit
  cases h : (cls.modules.isEmpty || cls.modules.contains ctx.name) <;> simp

/-- Claim C7: an instance whose enabled flag is false at construction is
skipped by the load loop with no error and no warning: it contributes zero
handles to all three callback lists even though it was constructed. -/
theorem c7_disabled_contributes_nothing
    (p : String) (load : String → LoadResult) (ctx : ModuleCtx)
    (st : Registry) (m : String) (cls : PluginClass)
    (hl : load m = LoadResult.ok cls)
    (hd : (pluginInit cls ctx).enabled = false) :
    processModule (some p) load ctx st m = (st, [], none) := by
  simp [processModule, hl, hd]

/-- Witness for claim C7 at a concrete input: a class whose affinity list
names only Other, constructed for the Signature context, leaves the empty
registry unchanged. -/
theorem c7_witness :
    processModule (some "/user/plugins") (fun _ => LoadResult.ok exClsOtherOnly)
        exCtx emptyRegistry "a" = (emptyRegistry, [], none) := by
  exact c7_disabled_contributes_nothing "/user/plugins"
    (fun _ => LoadResult.ok exClsOtherOnly) exCtx emptyRegistry "a"
    exClsOtherOnly rfl rfl

/-- Claim C9: dispatchScan threads one shared mutable record through the
handles: with a truthy record, the first handle receives it, the second
handle receives the value the first left behind, and the caller observes the
value the second left behind, with no warning and no exception. -/
theorem c9_scan_mutation_visible
    (c1 c2 : Callback) (a a1 a2 : PyVal)
    (ha : truthy a = true)
    (h1 : c1.run (some a) = (a1, none))
    (ha1 : truthy a1 = true)
    (h2 : c2.run (some a1) = (a2, none)) :
    scan_callbacks [c1, c2] a =
      ⟨[(c1.modName, c1.methName, some a), (c2.modName, c2.methName, some a1)],
       [], a2, none⟩ := by
  simp [scan_callbacks, callPlugins, callPluginsGo, ha, h1, ha1, h2]

/-- Witness for claim C9 at a concrete input: handle 1 sets valid to False
on the result record; handle 2 is invoked with the mutated record (valid is
False) and the caller sees the mutated record after dispatch. -/
theorem c9_witness :
    scan_callbacks [exValidFalseCb, exReaderCb]
        (PyVal.dictPy [("valid", PyVal.boolPy true)]) =
      ⟨[("plugin_five", "scan",
         some (PyVal.dictPy [("valid", PyVal.boolPy true)])),
        ("plugin_four", "scan",
         some (PyVal.dictPy [("valid", PyVal.boolPy false)]))],
       [], PyVal.dictPy [("valid", PyVal.boolPy false)], none⟩ := by
  exact c9_scan_mutation_visible exValidFalseCb exReaderCb
    (PyVal.dictPy [("valid", PyVal.boolPy true)])
    (PyVal.dictPy [("valid", PyVal.boolPy false)])
    (PyVal.dictPy [("valid", PyVal.boolPy false)]) rfl rfl rfl rfl

/-- Claim C10: when the dispatch argument is falsy (for example an empty
dict passed to scan_callbacks), every handle is invoked with no argument at
all: the loop tests the argument by truthiness, not by presence, so the
record is never delivered to any handle. -/
theorem c10_falsy_arg_never_delivered
    (cbs : List Callback) (a : PyVal) (hf : truthy a = false)
    (hok : ∀ cb ∈ cbs, (cb.run none).2 = none) :
    scan_callbacks cbs a =
      ⟨cbs.map (fun cb => (cb.modName, cb.methName, (none : Option PyVal))),
       [], a, none⟩ := by
  simpa [scan_callbacks, callPlugins] using
    callPluginsGo_falsy cbs a [] [] hf hok

/-- Witness for claim C10 at a concrete input: dispatching the scan list
over an empty dict invokes the handle with no argument. -/
theorem c10_witness :
    scan_callbacks [exReaderCb] (PyVal.dictPy []) =
      ⟨[("plugin_four", "scan", none)], [], PyVal.dictPy [], none⟩ := by
  exact c10_falsy_arg_never_delivered [exReaderCb] (PyVal.dictPy []) rfl
    (by intro cb hcb; simp only [List.mem_singleton] at hcb; subst hcb; rfl)

/-- Claim C2 (counterexample): the claim says a second load_plugins call
leaves each callback list with the same length as after a single call.  On
the code this fails: with a user directory holding two loadable extensions,
one call yields a scan list of length 2 and a second call on the same
registry yields length 4. -/
theorem c2_counterexample :
    ((load_plugins exUserAB exNoDir exCtx emptyRegistry).1.scan.length = 2) ∧
    ((load_plugins exUserAB exNoDir exCtx
        (load_plugins exUserAB exNoDir exCtx emptyRegistry).1).1.scan.length
      = 4) ∧
    (4 : Nat) ≠ 2 :=
  ⟨rfl, rfl, by decide⟩

/-- Claim C2 (amended): the three callback lists are created once by
Plugins.__init__ and never cleared; every load_plugins call appends, so two
successive identical calls leave each list exactly twice as long as one call
from the fresh registry. -/
theorem c2_second_load_doubles (u s : DirSource) (ctx : ModuleCtx) :
    ((load_plugins u s ctx
        (load_plugins u s ctx emptyRegistry).1).1.scan.length =
      2 * (load_plugins u s ctx emptyRegistry).1.scan.length) ∧
    ((load_plugins u s ctx
        (load_plugins u s ctx emptyRegistry).1).1.pre_scan.length =
      2 * (load_plugins u s ctx emptyRegistry).1.pre_scan.length) ∧
    ((load_plugins u s ctx
        (load_plugins u s ctx emptyRegistry).1).1.post_scan.length =
      2 * (load_plugins u s ctx emptyRegistry).1.post_scan.length) := by
  obtain ⟨hs, hp2, hq⟩ :=
    load_plugins_shift u s ctx (load_plugins u s ctx emptyRegistry).1
  refine ⟨?_, ?_, ?_⟩
  · rw [hs, List.length_append, two_mul]
  · rw [hp2, List.length_append, two_mul]
  · rw [hq, List.length_append, two_mul]

/-- Claim C3 (counterexample): the claim says an extension contributes a
handle only for the lifecycle methods it overrides, predicting
preScan = [B] for extension A overriding only scan and extension B
overriding preScan and postScan.  On the code this fails: getattr finds the
base-class default for every lifecycle method, so A appears in the pre scan
list too. -/
theorem c3_counterexample :
    (load_plugins exUserAB exNoDir exCtx emptyRegistry).1.pre_scan =
      [("a", "pre_scan"), ("b", "pre_scan")] ∧
    [("a", "pre_scan"), ("b", "pre_scan")] ≠ [("b", "pre_scan")] :=
  ⟨rfl, by decide⟩

/-- Claim C3 (amended): every enabled extension instance contributes exactly
one handle to each of the three callback lists, whatever lifecycle methods
its class overrides, because getattr always finds the Plugin base-class
default. -/
theorem c3_enabled_registers_all_three
    (p : String) (load : String → LoadResult) (ctx : ModuleCtx)
    (st : Registry) (m : String) (cls : PluginClass)
    (hl : load m = LoadResult.ok cls)
    (he : (pluginInit cls ctx).enabled = true) :
    processModule (some p) load ctx st m =
      (⟨st.scan ++ [(m, "scan")], st.pre_scan ++ [(m, "pre_scan")],
        st.post_scan ++ [(m, "post_scan")]⟩, [], none) := by
  have hg1 := getattrSucceeds_base cls "scan" (by decide)
  have hg2 := getattrSucceeds_base cls "pre_scan" (by decide)
  have hg3 := getattrSucceeds_base cls "post_scan" (by decide)
  simp [processModule, hl, he, hg1, hg2, hg3]

/-- Witness for claim C3 at a concrete input: extension A overrides only
scan, yet its module contributes a handle to all three lists. -/
theorem c3_witness :
    processModule (some "/user/plugins") (fun _ => LoadResult.ok exClsPlain)
        exCtx emptyRegistry "a" =
      (⟨[("a", "scan")], [("a", "pre_scan")], [("a", "post_scan")]⟩,
       [], none) := by
  exact c3_enabled_registers_all_three "/user/plugins"
    (fun _ => LoadResult.ok exClsPlain) exCtx emptyRegistry "a" exClsPlain
    rfl rfl

/-- Claim C8 (counterexample): the claim says handle order within one origin
is lexicographic by extension name.  On the code this fails: with a user
directory whose filesystem enumeration yields b.py before a.py, the scan
list registers b before a. -/
theorem c8_counterexample :
    (load_plugins exUserBA exNoDir exCtx emptyRegistry).1.scan =
      [("b", "scan"), ("a", "scan")] ∧
    [("b", "scan"), ("a", "scan")] ≠ [("a", "scan"), ("b", "scan")] :=
  ⟨rfl, by decide⟩

/-- Claim C8 (amended): registration places every user-origin handle before
every system-origin handle (each list is the user contribution followed by
the system contribution), and within one origin the order follows the
filesystem enumeration order of the directory listing, not a lexicographic
order. -/
theorem c8_user_before_system_in_listing_order
    (u s : DirSource) (ctx : ModuleCtx) (pu ps : String)
    (hup : u.path = some pu) (hsp : s.path = some ps)
    (hdisc : (list_plugins u s).2.2 = none)
    (huser : (loadModules (list_plugins u s).1.user.path u.load ctx
        (list_plugins u s).1.user.modules emptyRegistry).2 = none) :
    ((load_plugins u s ctx emptyRegistry).1.scan =
      (loadModules (list_plugins u s).1.user.path u.load ctx
        (list_plugins u s).1.user.modules emptyRegistry).1.scan ++
      (loadModules (list_plugins u s).1.system.path s.load ctx
        (list_plugins u s).1.system.modules emptyRegistry).1.scan) ∧
    ((load_plugins u s ctx emptyRegistry).1.pre_scan =
      (loadModules (list_plugins u s).1.user.path u.load ctx
        (list_plugins u s).1.user.modules emptyRegistry).1.pre_scan ++
      (loadModules (list_plugins u s).1.system.path s.load ctx
        (list_plugins u s).1.system.modules emptyRegistry).1.pre_scan) ∧
    ((load_plugins u s ctx emptyRegistry).1.post_scan =
      (loadModules (list_plugins u s).1.user.path u.load ctx
        (list_plugins u s).1.user.modules emptyRegistry).1.post_scan ++
      (loadModules (list_plugins u s).1.system.path s.load ctx
        (list_plugins u s).1.system.modules emptyRegistry).1.post_scan) ∧
    ((list_plugins u s).1.user.modules =
      (u.listing.filter (fun f => strEndsWith f moduleExt)).map
        (fun f => f.dropRight moduleExt.length)) ∧
    ((list_plugins u s).1.system.modules =
      (s.listing.filter (fun f => strEndsWith f moduleExt)).map
        (fun f => f.dropRight moduleExt.length)) := by
  rcases hu : listOnePath u with ⟨ui, uw, ue⟩
  cases ue with
  | some e0 =>
    exfalso
    rw [list_plugins, hu] at hdisc
    simp at hdisc
  | none =>
    rcases hs2 : listOnePath s with ⟨si, sw, se⟩
    have hlp : list_plugins u s = (⟨ui, si⟩, uw ++ sw, se) := by
      rw [list_plugins, hu, hs2]
    rw [hlp] at hdisc
    have hse : se = none := hdisc
    subst hse
    rw [hlp] at huser ⊢
    simp only at huser ⊢
    rcases hul : loadModules ui.path u.load ctx ui.modules emptyRegistry
      with ⟨st1, e1⟩
    have huser2 : (loadModules ui.path u.load ctx ui.modules
        emptyRegistry).2 = none := huser
    rw [hul] at huser2
    have he1 : e1 = none := huser2
    subst he1
    obtain ⟨ds, dp, dq, de⟩ :=
      loadModules_shift si.path s.load ctx si.modules st1
    have hload : load_plugins u s ctx emptyRegistry =
        loadModules si.path s.load ctx si.modules st1 := by
      simp only [load_plugins, hlp, hul]
    refine ⟨?_, ?_, ?_, ?_, ?_⟩
    · rw [hload, ds]
    · rw [hload, dp]
    · rw [hload, dq]
    · have h2 : (listOnePath u).2.2 = none := by rw [hu]
      have := listOnePath_modules u pu hup h2
      rw [hu] at this
      simpa using this
    · have h2 : (listOnePath s).2.2 = none := by rw [hs2]
      have := listOnePath_modules s ps hsp h2
      rw [hs2] at this
      simpa using this

/-- Witness for claim C8 at concrete inputs: one user module u1 and one
system module s1; each callback list is the user handle followed by the
system handle, and each origin records its modules in listing order. -/
theorem c8_witness :
    ((load_plugins exUserSingle exSysSingle exCtx emptyRegistry).1.scan =
      [("u1", "scan")] ++ [("s1", "scan")]) ∧
    ((load_plugins exUserSingle exSysSingle exCtx emptyRegistry).1.pre_scan =
      [("u1", "pre_scan")] ++ [("s1", "pre_scan")]) ∧
    ((load_plugins exUserSingle exSysSingle exCtx emptyRegistry).1.post_scan =
      [("u1", "post_scan")] ++ [("s1", "post_scan")]) ∧
    ((list_plugins exUserSingle exSysSingle).1.user.modules = ["u1"]) ∧
    ((list_plugins exUserSingle exSysSingle).1.system.modules = ["s1"]) := by
  exact c8_user_before_system_in_listing_order exUserSingle exSysSingle exCtx
    "/user/plugins" "/sys/plugins" rfl rfl rfl rfl
